import Mathlib

/-!
Verification of the step-history reconciliation, GIF speed transformation and
task-validation logic of the browser-use demo application (`src/app.py`).

The Python code is shallowly embedded: list accessors of the external run
history become fields of `RunResultBundle`; the per-step rendering loop becomes
a pure function producing `StepRecord`s; Python expressions that can raise
(indexing) are additionally modelled in the `Except` monad so totality of the
reconciliation can be stated; the PIL image pipeline is modelled by an abstract
decode function `String → Option GifImage` together with an `EncodedGif`
record capturing exactly what `speed_up_gif` hands to the encoder (frame pixel
data in order, per-frame durations, loop count).
-/

/-- The bundle of result lists returned by the external agent run
(`app.py` lines 133-138: `urls`, `screenshots`, `action_names`,
`extracted_content`, `errors`, `model_actions`).  `model_actions` entries are
opaque records in the source; they are modelled as strings since the
reconciler only moves them around. -/
structure RunResultBundle where
  urls : List String
  screenshots : List String
  action_names : List String
  extracted_content : List String
  errors : List String
  model_actions : List String
deriving Repr, DecidableEq

/-- One per-step display record, as rendered by the loop at `app.py`
lines 158-168.  `index` is the 1-based ordinal shown as `Step i+1`. -/
structure StepRecord where
  index : Nat
  action : String
  url : String
  extracted : String
  model_action : String
deriving Repr, DecidableEq

/-- The derived outcome of reconciliation: verdict, summary text, ordered
step records, and the unmodified bundle for the debug view. -/
structure RunOutcome where
  succeeded : Bool
  summary_text : String
  steps : List StepRecord
  debug : RunResultBundle
deriving Repr, DecidableEq

/-- `app.py` line 144: the failure branch is taken when
`errors and "done" not in action_names`. -/
def run_failed (b : RunResultBundle) : Bool :=
  !b.errors.isEmpty && !(b.action_names.contains "done")

/-- `app.py` line 141:
`final_extracted = extracted_content_list[-1] if extracted_content_list else "No result"`. -/
def final_extracted (l : List String) : String :=
  if l.isEmpty then "No result" else l.getLastD "No result"

/-- `app.py` lines 152-157: `steps_count = max(len(action_names),
len(extracted_content_list), len(model_actions), len(urls))`. -/
def steps_count (b : RunResultBundle) : Nat :=
  max (max (max b.action_names.length b.extracted_content.length)
    b.model_actions.length) b.urls.length

/-- `app.py` lines 160-163: a field is `lst[i] if i < len(lst) else "N/A"`. -/
def fieldAt (l : List String) (i : Nat) : String :=
  if i < l.length then l.getD i "N/A" else "N/A"

/-- The step record built at loop index `i` (`app.py` lines 159-163). -/
def mkStep (b : RunResultBundle) (i : Nat) : StepRecord :=
  { index := i + 1
    action := fieldAt b.action_names i
    url := fieldAt b.urls i
    extracted := fieldAt b.extracted_content i
    model_action := fieldAt b.model_actions i }

/-- The Step Reconciler: the pure content of `app.py` lines 141-167, producing
the verdict, the summary text, the ordered list of step records and the debug
copy of the bundle. -/
def reconcile (b : RunResultBundle) : RunOutcome :=
  { succeeded := !run_failed b
    summary_text := final_extracted b.extracted_content
    steps := (List.range (steps_count b)).map (mkStep b)
    debug := b }

/-! ### Exception-aware model of the reconciler

Python list indexing raises `IndexError` when out of range.  To state that the
reconciliation never raises, each indexing expression of the source is also
modelled in the `Except` monad, with the same guards the source uses. -/

/-- Python `l[i]` for a non-negative index: value, or `IndexError`. -/
def pyIndex (l : List String) (i : Nat) : Except String String :=
  match l[i]? with
  | some x => Except.ok x
  | none => Except.error "IndexError: list index out of range"

/-- Python `l[-1]`: last element, or `IndexError` on the empty list. -/
def pyLast (l : List String) : Except String String :=
  match l.getLast? with
  | some x => Except.ok x
  | none => Except.error "IndexError: list index out of range"

/-- `lst[i] if i < len(lst) else "N/A"`, with the indexing able to raise. -/
def fieldE (l : List String) (i : Nat) : Except String String :=
  if i < l.length then pyIndex l i else Except.ok "N/A"

/-- The loop body at `app.py` lines 159-163, with raising indexing. -/
def stepE (b : RunResultBundle) (i : Nat) : Except String StepRecord := do
  let action ← fieldE b.action_names i
  let url ← fieldE b.urls i
  let extracted ← fieldE b.extracted_content i
  let model_action ← fieldE b.model_actions i
  Except.ok { index := i + 1, action := action, url := url,
              extracted := extracted, model_action := model_action }

/-- The rendering loop over the step indices, with raising indexing. -/
def stepsE (b : RunResultBundle) : List Nat → Except String (List StepRecord)
  | [] => Except.ok []
  | i :: rest => do
    let s ← stepE b i
    let others ← stepsE b rest
    Except.ok (s :: others)

/-- The whole reconciliation of `app.py` lines 141-167 in the `Except` monad:
`final_extracted` (a guarded `l[-1]`), the verdict, and the step loop. -/
def reconcileE (b : RunResultBundle) : Except String RunOutcome := do
  let summary ← if b.extracted_content.isEmpty then Except.ok "No result"
                else pyLast b.extracted_content
  let steps ← stepsE b (List.range (steps_count b))
  Except.ok { succeeded := !run_failed b, summary_text := summary,
              steps := steps, debug := b }

/-! ### GIF Speed Transformer (`speed_up_gif`, `app.py` lines 75-95)

A decoded multi-frame image is a list of frames; each frame carries opaque
pixel data and the optional `duration` entry of its `info` dict
(`img.info.get('duration', 100)` defaults a missing entry to 100).  The
filesystem together with PIL decoding is abstracted as a function
`String → Option GifImage`: `none` models `Image.open` raising (missing file,
undecodable data) or the image not exposing multiple frames.  PIL never yields
a decoded image with zero frames; the guard for an empty frame list models
`frames[0]` raising on that impossible input. -/

/-- One decoded frame: opaque pixel data and the optional duration metadata. -/
structure GifFrame where
  pixels : List Nat
  duration : Option Nat
deriving Repr, DecidableEq

/-- A decoded multi-frame image: its frames in order. -/
structure GifImage where
  frames : List GifFrame
deriving Repr, DecidableEq

/-- What `speed_up_gif` hands to the encoder via `frames[0].save(...)`:
the frame pixel data in order, the per-frame `duration` list, and `loop=0`
(infinite looping). -/
structure EncodedGif where
  frames : List (List Nat)
  durations : List Nat
  loop : Nat
deriving Repr, DecidableEq

/-- `app.py` line 81: `img.info.get('duration', 100)`. -/
def frameDuration (f : GifFrame) : Nat :=
  f.duration.getD 100

/-- `speed_up_gif(gif_path, speed_factor)` (`app.py` lines 75-95), over an
abstract decoder `fs`.  On decode failure it raises (modelled as
`Except.error "DecodeError"`); otherwise it collects all durations, copies all
frames, divides every duration by `speed_factor` with integer division, and
encodes them as one animation with `loop=0`. -/
def speed_up_gif (fs : String → Option GifImage) (gif_path : String)
    (speed_factor : Nat) : Except String EncodedGif :=
  match fs gif_path with
  | none => Except.error "DecodeError"
  | some img =>
    if img.frames.isEmpty then Except.error "DecodeError"
    else
      let durations := img.frames.map frameDuration
      let frames := img.frames.map GifFrame.pixels
      Except.ok { frames := frames
                  durations := durations.map (fun d => d / speed_factor)
                  loop := 0 }

/-! ### The Run Task handler (`app.py` lines 110-194)

`handleRunClick` models the empty-task guard at lines 110-113.
`renderAfterRun` models the rendering flow after a successful agent run
(lines 141-194): the verdict banner, the step markdown, and the GIF display.
The GIF call at line 184 sits inside the same `try` block as the verdict and
steps; when it raises, control jumps to the `except` handler at line 187,
which overwrites `final_result_container` with the exception text and then
calls `speed_up_gif` again (line 191) — that second call raises the same
error, this time uncaught. -/

/-- What the handler does with the entered task string. -/
inductive TaskAction
  | validationError (msg : String)
  | invoke (task : String)
deriving Repr, DecidableEq

/-- `app.py` lines 110-113: `if not task: st.error(...) else: ...` — an empty
string is the only falsy `str`, so the agent run is started exactly when the
task string is non-empty. -/
def handleRunClick (task : String) : TaskAction :=
  if task.isEmpty then TaskAction.validationError "Please enter a task first!"
  else TaskAction.invoke task

/-- Contents of the `final_result_container` placeholder. -/
inductive Banner
  | empty
  | success (msg : String)
  | failure (msg : String)
deriving Repr, DecidableEq

/-- The user-visible state after the handler finishes. -/
structure Display where
  final_result : Banner
  steps_shown : List StepRecord
  gif_image_shown : Bool
  uncaught_exception : Bool
deriving Repr, DecidableEq

/-- The banner written at `app.py` lines 144-147. -/
def verdictBanner (o : RunOutcome) : Banner :=
  if o.succeeded then
    Banner.success ("✅ Task Completed Successfully: " ++ o.summary_text)
  else
    Banner.failure ("❌ Task Failed: " ++ o.summary_text)

/-- The rendering flow of `app.py` lines 141-194 after the agent run returned
bundle `b`: write the verdict banner, render the steps, then — if
`agent_history.gif` exists — transform and display it.  A raising transform
escapes to the `except` handler, which overwrites the banner with the
exception text and re-raises out of the handler by calling the transformer a
second time on the same file. -/
def renderAfterRun (fs : String → Option GifImage) (gif_exists : Bool)
    (b : RunResultBundle) : Display :=
  let o := reconcile b
  if gif_exists then
    match speed_up_gif fs "agent_history.gif" 2 with
    | Except.ok _ =>
      { final_result := verdictBanner o, steps_shown := o.steps,
        gif_image_shown := true, uncaught_exception := false }
    | Except.error e =>
      { final_result := Banner.failure ("❌ Task Failed: " ++ e),
        steps_shown := o.steps,
        gif_image_shown := false, uncaught_exception := true }
  else
    { final_result := verdictBanner o, steps_shown := o.steps,
      gif_image_shown := false, uncaught_exception := false }

/-! ### Concrete bundles and filesystems used by the witness theorems -/

/-- The scenario bundle of spec section 8 (with `"done"` present and no
errors). -/
def doneBundle : RunResultBundle :=
  { urls := ["u1"], screenshots := [], action_names := ["click", "done"],
    extracted_content := ["hello", "world"], errors := [],
    model_actions := ["m1", "m2"] }

/-- A bundle where errors are present together with a `"done"` action. -/
def demoBundle : RunResultBundle :=
  { urls := ["u1"], screenshots := [], action_names := ["click", "done"],
    extracted_content := ["hello", "world"], errors := ["boom"],
    model_actions := ["m1", "m2"] }

/-- The all-empty bundle. -/
def emptyBundle : RunResultBundle :=
  { urls := [], screenshots := [], action_names := [],
    extracted_content := [], errors := [], model_actions := [] }

/-- A three-frame animation whose frames all record a 100ms duration. -/
def demoGif : GifImage :=
  { frames := [ { pixels := [1, 2], duration := some 100 },
                { pixels := [3], duration := some 100 },
                { pixels := [4], duration := some 100 } ] }

/-- A filesystem on which only `agent_history.gif` decodes, to `demoGif`. -/
def demoFs : String → Option GifImage :=
  fun p => if p = "agent_history.gif" then some demoGif else none

/-- A two-frame animation whose first frame records no duration metadata. -/
def noDurGif : GifImage :=
  { frames := [ { pixels := [7], duration := none },
                { pixels := [8], duration := some 40 } ] }

/-- A filesystem on which every path decodes to `noDurGif`. -/
def noDurFs : String → Option GifImage := fun _ => some noDurGif

/-- A filesystem on which no path decodes at all. -/
def noGifFs : String → Option GifImage := fun _ => none

/-! ### Helper lemmas -/

/-- A per-step field equals the list entry at `i` when present, else the
placeholder. -/
lemma fieldAt_eq (l : List String) (i : Nat) :
    fieldAt l i = (l[i]?).getD "N/A" := by
  unfold fieldAt
  by_cases h : i < l.length
  · rw [if_pos h, List.getD_eq_getElem?_getD]
  · rw [if_neg h, getElem?_neg l i h]
    rfl

/-- The summary is the last extracted element, with the default on empty. -/
lemma final_extracted_eq (l : List String) :
    final_extracted l = (l.getLast?).getD "No result" := by
  unfold final_extracted
  cases l with
  | nil => rfl
  | cons x xs => simp [List.getLastD_eq_getLast?]

/-- Binding a successful `Except` computation just applies the continuation. -/
lemma except_ok_bind {α β : Type} (a : α) (f : α → Except String β) :
    (Except.ok a >>= f : Except String β) = f a := rfl

/-- The guarded field access never raises and agrees with `fieldAt`. -/
lemma fieldE_eq (l : List String) (i : Nat) :
    fieldE l i = Except.ok (fieldAt l i) := by
  unfold fieldE fieldAt pyIndex
  by_cases h : i < l.length
  · rw [if_pos h, if_pos h, getElem?_pos l i h, List.getD_eq_getElem?_getD,
      getElem?_pos l i h]
    rfl
  · rw [if_neg h, if_neg h]

/-- The loop body never raises and agrees with `mkStep`. -/
lemma stepE_eq (b : RunResultBundle) (i : Nat) :
    stepE b i = Except.ok (mkStep b i) := by
  unfold stepE mkStep
  simp [fieldE_eq, except_ok_bind]

/-- The rendering loop never raises and agrees with the mapped step list. -/
lemma stepsE_eq (b : RunResultBundle) :
    ∀ l : List Nat, stepsE b l = Except.ok (l.map (mkStep b))
  | [] => rfl
  | i :: rest => by
    simp [stepsE, stepE_eq, except_ok_bind, stepsE_eq b rest]

/-- `l[-1]` never raises on a non-empty list and agrees with the summary. -/
lemma pyLast_eq (l : List String) (h : l ≠ []) :
    pyLast l = Except.ok (l.getLastD "No result") := by
  unfold pyLast
  cases hl : l.getLast? with
  | none => exact absurd (List.getLast?_eq_none_iff.mp hl) h
  | some x => simp [List.getLastD_eq_getLast?, hl]

/-! ### Claims -/

/-- C1: the verdict satisfies `succeeded ↔ (errors = [] ∨ "done" ∈
action_names)`; in particular a `"done"` action name forces success even with
non-empty errors. -/
theorem C1_verdict_or (b : RunResultBundle) :
    ((reconcile b).succeeded = true ↔
      (b.errors = [] ∨ "done" ∈ b.action_names))
    ∧ ("done" ∈ b.action_names → (reconcile b).succeeded = true) := by
  have h : (reconcile b).succeeded
      = (b.errors.isEmpty || b.action_names.contains "done") := by
    simp [reconcile, run_failed]
  constructor
  · rw [h]
    simp [List.isEmpty_iff, List.contains, List.elem_iff]
  · intro hd
    rw [h]
    simp [List.contains, List.elem_iff, hd]

/-- Witness for C1 at a bundle with errors present and `"done"` executed. -/
theorem C1_verdict_or_witness :
    ("done" ∈ demoBundle.action_names ∧ demoBundle.errors ≠ [])
    ∧ (reconcile demoBundle).succeeded = true :=
  ⟨by decide, (C1_verdict_or demoBundle).2 (by decide)⟩

/-- C2: the number of step records equals the maximum of the four list
lengths, is zero when all four are empty, and no record exists at or beyond
that maximum. -/
theorem C2_step_count (b : RunResultBundle) :
    (reconcile b).steps.length =
      max (max (max b.action_names.length b.extracted_content.length)
        b.model_actions.length) b.urls.length
    ∧ ((b.action_names = [] ∧ b.extracted_content = []
        ∧ b.model_actions = [] ∧ b.urls = []) →
        (reconcile b).steps = [])
    ∧ (∀ i, (reconcile b).steps.length ≤ i → (reconcile b).steps[i]? = none) := by
  refine ⟨?_, ?_, ?_⟩
  · simp [reconcile, steps_count]
  · rintro ⟨h1, h2, h3, h4⟩
    simp [reconcile, steps_count, h1, h2, h3, h4]
  · intro i hi
    exact getElem?_neg _ i (by omega)

/-- Witness for C2 at the all-empty bundle. -/
theorem C2_step_count_witness :
    (reconcile emptyBundle).steps = []
    ∧ (reconcile emptyBundle).steps[0]? = none :=
  ⟨(C2_step_count emptyBundle).2.1 ⟨rfl, rfl, rfl, rfl⟩,
   (C2_step_count emptyBundle).2.2 0 (by decide)⟩

/-- C3: the step record at position `i` carries the 1-based ordinal `i + 1`
and takes each field from the corresponding list at position `i` when present,
else the `"N/A"` placeholder. -/
theorem C3_step_fields (b : RunResultBundle) (i : Nat)
    (h : i < steps_count b) :
    ∃ r, (reconcile b).steps[i]? = some r
      ∧ r.index = i + 1
      ∧ r.action = (b.action_names[i]?).getD "N/A"
      ∧ r.url = (b.urls[i]?).getD "N/A"
      ∧ r.extracted = (b.extracted_content[i]?).getD "N/A"
      ∧ r.model_action = (b.model_actions[i]?).getD "N/A" := by
  refine ⟨mkStep b i, ?_, rfl, ?_, ?_, ?_, ?_⟩
  · show ((List.range (steps_count b)).map (mkStep b))[i]? = some (mkStep b i)
    rw [List.getElem?_map, List.getElem?_range h]
    rfl
  all_goals exact fieldAt_eq _ i

/-- Witness for C3 at index 1 of the scenario bundle, where the URL list has
run out but the other three lists still have entries. -/
theorem C3_step_fields_witness :
    ∃ r, (reconcile doneBundle).steps[1]? = some r
      ∧ r.index = 2
      ∧ r.action = (doneBundle.action_names[1]?).getD "N/A"
      ∧ r.url = (doneBundle.urls[1]?).getD "N/A"
      ∧ r.extracted = (doneBundle.extracted_content[1]?).getD "N/A"
      ∧ r.model_action = (doneBundle.model_actions[1]?).getD "N/A" :=
  C3_step_fields doneBundle 1 (by decide)

/-- C4: the summary text is the last element of `extracted_content` when that
list is non-empty, and the `"No result"` marker when it is empty. -/
theorem C4_summary (b : RunResultBundle) :
    (∀ h : b.extracted_content ≠ [],
      (reconcile b).summary_text = b.extracted_content.getLast h)
    ∧ (b.extracted_content = [] → (reconcile b).summary_text = "No result") := by
  constructor
  · intro h
    show final_extracted b.extracted_content = _
    rw [final_extracted_eq, List.getLast?_eq_getLast _ h]
    rfl
  · intro h
    show final_extracted b.extracted_content = _
    rw [final_extracted_eq, h]
    rfl

/-- Witness for C4 at the scenario bundle and the all-empty bundle. -/
theorem C4_summary_witness :
    (reconcile doneBundle).summary_text
      = doneBundle.extracted_content.getLast (by decide)
    ∧ (reconcile emptyBundle).summary_text = "No result" :=
  ⟨(C4_summary doneBundle).1 (by decide), (C4_summary emptyBundle).2 rfl⟩

/-- C8: the Step Reconciler is pure, total and deterministic — even with
Python's raising list indexing modelled explicitly it always returns a result
(never an exception), that result is `reconcile b`, and reconciling the same
bundle twice yields structurally equal outcomes. -/
theorem C8_reconciler_total (b : RunResultBundle) :
    reconcileE b = Except.ok (reconcile b)
    ∧ reconcile b = reconcile b := by
  refine ⟨?_, rfl⟩
  unfold reconcileE
  by_cases h : b.extracted_content.isEmpty
  · rw [if_pos h]
    simp [except_ok_bind, stepsE_eq, reconcile, final_extracted, h]
  · rw [if_neg h, pyLast_eq _ (by simpa [List.isEmpty_iff] using h)]
    simp [except_ok_bind, stepsE_eq, reconcile, final_extracted, h]

/-- C5: on a decodable multi-frame input and a speed factor `s ≥ 1`, the GIF
Speed Transformer succeeds, keeps the frames (count, order and pixel content)
unchanged, divides each recorded duration by `s` with integer division, sets
the loop count to 0 (infinite), and for `s = 1` leaves every duration
unchanged. -/
theorem C5_gif_speed (fs : String → Option GifImage) (p : String)
    (img : GifImage) (s : Nat)
    (hdec : fs p = some img) (hmf : 2 ≤ img.frames.length) (hs : 1 ≤ s) :
    ∃ out, speed_up_gif fs p s = Except.ok out
      ∧ out.frames = img.frames.map GifFrame.pixels
      ∧ out.frames.length = img.frames.length
      ∧ out.durations = (img.frames.map frameDuration).map (fun d => d / s)
      ∧ out.loop = 0
      ∧ (s = 1 → out.durations = img.frames.map frameDuration) := by
  have hne : ¬ img.frames.isEmpty := by
    have : img.frames ≠ [] := by
      intro hnil
      rw [hnil] at hmf
      simp at hmf
    simpa [List.isEmpty_iff] using this
  refine ⟨{ frames := img.frames.map GifFrame.pixels,
            durations := (img.frames.map frameDuration).map (fun d => d / s),
            loop := 0 }, ?_, rfl, by simp, rfl, rfl, ?_⟩
  · unfold speed_up_gif
    rw [hdec]
    simp [hne]
  · intro h1
    subst h1
    simp

/-- Witness for C5: `demoGif` (three 100ms frames) at speed factor 2. -/
theorem C5_gif_speed_witness :
    ∃ out, speed_up_gif demoFs "agent_history.gif" 2 = Except.ok out
      ∧ out.frames = demoGif.frames.map GifFrame.pixels
      ∧ out.frames.length = demoGif.frames.length
      ∧ out.durations = (demoGif.frames.map frameDuration).map (fun d => d / 2)
      ∧ out.loop = 0
      ∧ (2 = 1 → out.durations = demoGif.frames.map frameDuration) :=
  C5_gif_speed demoFs "agent_history.gif" demoGif 2 (by decide) (by decide)
    (by decide)

/-- C7: when the path does not decode (missing file or not a multi-frame
image), the GIF Speed Transformer fails with the decode error and produces no
output bytes; it is never a no-op. -/
theorem C7_gif_decode_error (fs : String → Option GifImage) (p : String)
    (s : Nat) (h : fs p = none) :
    speed_up_gif fs p s = Except.error "DecodeError"
    ∧ ∀ g, speed_up_gif fs p s ≠ Except.ok g := by
  have he : speed_up_gif fs p s = Except.error "DecodeError" := by
    unfold speed_up_gif
    rw [h]
  refine ⟨he, ?_⟩
  intro g hg
  rw [he] at hg
  exact Except.noConfusion hg

/-- Witness for C7 on a filesystem where no path decodes. -/
theorem C7_gif_decode_error_witness :
    speed_up_gif noGifFs "agent_history.gif" 2 = Except.error "DecodeError"
    ∧ ∀ g, speed_up_gif noGifFs "agent_history.gif" 2 ≠ Except.ok g :=
  C7_gif_decode_error noGifFs "agent_history.gif" 2 rfl

/-- C10: a frame with no recorded duration metadata is treated as lasting 100
before division, so its output duration is `100 / s`. -/
theorem C10_default_duration (fs : String → Option GifImage) (p : String)
    (img : GifImage) (s i : Nat)
    (hdec : fs p = some img) (hi : i < img.frames.length)
    (hnone : (img.frames.get ⟨i, hi⟩).duration = none) :
    ∃ out, speed_up_gif fs p s = Except.ok out
      ∧ out.durations[i]? = some (100 / s) := by
  have hne : ¬ img.frames.isEmpty := by
    have : img.frames ≠ [] := by
      intro hnil
      rw [hnil] at hi
      simp at hi
    simpa [List.isEmpty_iff] using this
  refine ⟨{ frames := img.frames.map GifFrame.pixels,
            durations := (img.frames.map frameDuration).map (fun d => d / s),
            loop := 0 }, ?_, ?_⟩
  · unfold speed_up_gif
    rw [hdec]
    simp [hne]
  · have hsome : img.frames[i]? = some (img.frames.get ⟨i, hi⟩) :=
      getElem?_pos img.frames i hi
    show ((img.frames.map frameDuration).map (fun d => d / s))[i]?
      = some (100 / s)
    rw [List.getElem?_map, List.getElem?_map, hsome]
    have hnone2 : img.frames[i].duration = none := hnone
    simp [frameDuration, hnone2]

/-- Witness for C10: the first frame of `noDurGif` has no duration entry and
comes out at `100 / 2 = 50`. -/
theorem C10_default_duration_witness :
    ∃ out, speed_up_gif noDurFs "agent_history.gif" 2 = Except.ok out
      ∧ out.durations[0]? = some (100 / 2) :=
  C10_default_duration noDurFs "agent_history.gif" noDurGif 2 0 rfl
    (by decide) (by decide)

/-- C6 counterexample: at the spec section 8 scenario bundle (verdict
successful) with a GIF file present whose decode fails, the rendered verdict
banner is not the reconciler's verdict banner — the GIF failure escapes into
the `except` handler, which overwrites `final_result_container`. -/
theorem C6_counterexample :
    (reconcile doneBundle).succeeded = true
    ∧ (renderAfterRun noGifFs true doneBundle).steps_shown
        = (reconcile doneBundle).steps
    ∧ (renderAfterRun noGifFs true doneBundle).final_result
        ≠ verdictBanner (reconcile doneBundle) := by
  refine ⟨by decide, rfl, ?_⟩
  decide

/-- C6 amended: a GIF transform failure leaves the already rendered step
records unchanged, but the verdict banner is overwritten with a failure banner
carrying the GIF error text, the GIF image is not shown, and the second
transform attempt inside the error handler raises uncaught. -/
theorem C6_gif_not_isolated (fs : String → Option GifImage)
    (b : RunResultBundle) (e : String)
    (h : speed_up_gif fs "agent_history.gif" 2 = Except.error e) :
    (renderAfterRun fs true b).steps_shown = (reconcile b).steps
    ∧ (renderAfterRun fs true b).final_result
        = Banner.failure ("❌ Task Failed: " ++ e)
    ∧ (renderAfterRun fs true b).gif_image_shown = false
    ∧ (renderAfterRun fs true b).uncaught_exception = true := by
  unfold renderAfterRun
  simp [h]

/-- Witness for the amended C6 at the scenario bundle with a failing GIF. -/
theorem C6_gif_not_isolated_witness :
    (renderAfterRun noGifFs true doneBundle).steps_shown
        = (reconcile doneBundle).steps
    ∧ (renderAfterRun noGifFs true doneBundle).final_result
        = Banner.failure ("❌ Task Failed: " ++ "DecodeError")
    ∧ (renderAfterRun noGifFs true doneBundle).gif_image_shown = false
    ∧ (renderAfterRun noGifFs true doneBundle).uncaught_exception = true :=
  C6_gif_not_isolated noGifFs doneBundle "DecodeError" rfl

/-- C9: on an empty task the handler signals the validation error and never
invokes the agent run; the run is invoked exactly with the entered task, which
is then non-empty. -/
theorem C9_empty_task_guard (t : String) :
    (t = "" →
      handleRunClick t = TaskAction.validationError "Please enter a task first!")
    ∧ (∀ u, handleRunClick t = TaskAction.invoke u → u = t ∧ t ≠ "") := by
  constructor
  · intro h
    subst h
    rfl
  · intro u hu
    unfold handleRunClick at hu
    by_cases h : t.isEmpty
    · rw [if_pos h] at hu
      exact TaskAction.noConfusion hu
    · rw [if_neg h] at hu
      cases hu
      exact ⟨rfl, by simpa [String.isEmpty_iff] using h⟩

/-- Witness for C9 on the empty task and on a concrete non-empty task. -/
theorem C9_empty_task_guard_witness :
    handleRunClick "" = TaskAction.validationError "Please enter a task first!"
    ∧ ("go" = "go" ∧ "go" ≠ "") :=
  ⟨(C9_empty_task_guard "").1 rfl,
   (C9_empty_task_guard "go").2 "go" (by decide)⟩
